import Mathlib

set_option maxHeartbeats 1000000

/-!
Shallow embedding of the prediction request pipeline of
`app/api/v1/endpoints/prediction.py` (predictive-maintenance backend).

Python floats are modelled by `PyFloat` (a rational value, NaN, or an
infinity) where the ordering on values is needed, and by `ℚ` where only
exact threshold comparison and decimal rounding occur.  Python exceptions
are modelled by `Except String` carrying the exception text; the module
level globals `model` and `FEATURE_COLS` become explicit `Option`-typed
arguments of the request handler.
-/

/-- A cell of the single-row pandas DataFrame built by the endpoint:
either a string (the categorical Type column) or a numeric value. -/
inductive Value where
  | str (s : String)
  | num (q : ℚ)
deriving DecidableEq, Repr

/-- A Python float as compared by `_interpret_probability`: a numeric
value, NaN (all comparisons false), or an infinity. -/
inductive PyFloat where
  | nan
  | inf
  | ninf
  | val (q : ℚ)
deriving DecidableEq, Repr

/-- IEEE-754 style strict less-than on `PyFloat`: any comparison with
NaN is false; minus infinity is below every non-NaN value; plus infinity
is above every non-NaN value. -/
def PyFloat.lt : PyFloat → PyFloat → Bool
  | .nan, _ => false
  | _, .nan => false
  | .ninf, .ninf => false
  | .ninf, _ => true
  | _, .ninf => false
  | .inf, _ => false
  | .val _, .inf => true
  | .val a, .val b => decide (a < b)

/-- Explanatory message of the Normal status (`_interpret_probability`). -/
def pesanNormal : String :=
  "Mesin dalam kondisi normal. Probabilitas kegagalan rendah, tetap lakukan inspeksi rutin."

/-- Explanatory message of the Warning status (`_interpret_probability`). -/
def pesanWarning : String :=
  "Waspada. Model mendeteksi peningkatan risiko kegagalan. Pertimbangkan penjadwalan maintenance preventif."

/-- Explanatory message of the Failure status (`_interpret_probability`). -/
def pesanFailure : String :=
  "Risiko kegagalan mesin tinggi. Disarankan dilakukan pemeriksaan segera dan penjadwalan perawatan."

/-- Embedding of `_interpret_probability`: maps a failure probability to
a (status, message) pair with the fixed thresholds 0.3 and 0.7. -/
def interpret_probability (prob_failure : PyFloat) : String × String :=
  if PyFloat.lt prob_failure (.val (mkRat 3 10)) then
    ("Normal", pesanNormal)
  else if PyFloat.lt prob_failure (.val (mkRat 7 10)) then
    ("Warning", pesanWarning)
  else
    ("Failure", pesanFailure)

/-- Modelled from the spec: the request payload schema
(`PredictionInputSchema` from `app/schemas/prediction.py`, a file outside
the provided sources) — five required numeric sensor fields. -/
structure PredictionInputSchema where
  air_temperature : ℚ
  process_temperature : ℚ
  rotational_speed : ℚ
  torque : ℚ
  tool_wear : ℚ
deriving DecidableEq, Repr

/-- Modelled from the spec: the response schema
(`PredictionOutputSchema` from `app/schemas/prediction.py`, a file outside
the provided sources) — status, probability and message. -/
structure PredictionOutputSchema where
  machine_status : String
  probability : ℚ
  message : String
deriving DecidableEq, Repr

/-- The FastAPI `HTTPException` payload raised by the endpoint: an HTTP
status code and a detail string. -/
structure HTTPException where
  status_code : Nat
  detail : String
deriving DecidableEq, Repr

/-- Detail string of the unready rejection (model or feature columns not
loaded). -/
def unreadyDetail : String :=
  "Model ML belum terkonfigurasi di server. Pastikan file model (.pkl) dan feature_info.json sudah sesuai dengan environment backend."

/-- Detail string of the feature-assembly failure. -/
def featureDetail : String :=
  "Terjadi kesalahan saat menyiapkan data fitur untuk model ML."

/-- Detail string of the inference failure. -/
def inferenceDetail : String :=
  "Terjadi kesalahan saat melakukan prediksi dengan model ML."

/-- The `fitur_dict` mapping built by `predict_failure`: the fixed Type
default "M" plus the five sensor fields, in insertion order. -/
def fitur_dict (data : PredictionInputSchema) : List (String × Value) :=
  [("Type", .str "M"),
   ("Air temperature [K]", .num data.air_temperature),
   ("Process temperature [K]", .num data.process_temperature),
   ("Rotational speed [rpm]", .num data.rotational_speed),
   ("Torque [Nm]", .num data.torque),
   ("Tool wear [min]", .num data.tool_wear)]

/-- Embedding of `pd.DataFrame([fitur_dict])[FEATURE_COLS]`: select, in
schema order, the value of each schema column from the mapping.  A schema
column absent from the mapping raises a KeyError (the error text names the
column); mapping keys not selected by the schema are silently dropped,
exactly as pandas column selection does. -/
def assembleFeatures : List String → List (String × Value) → Except String (List Value)
  | [], _ => .ok []
  | c :: cs, dict =>
    match dict.lookup c with
    | some v =>
      match assembleFeatures cs dict with
      | .ok vs => .ok (v :: vs)
      | .error e => .error e
    | none => .error (c ++ " not in index")

/-- The loaded model artifact, capability-dispatched as in the endpoint:
either probability-capable (`predict_proba`, with an optional exposed
class list) or label-only (`predict`).  The artifact functions receive the
assembled feature row and may raise (modelled by `Except String`, the
string being the exception text). -/
inductive Model where
  | probaModel (predict_proba : List Value → Except String (List ℚ))
      (classes : Option (List Int))
  | labelModel (predict : List Value → Except String Int)

/-- Embedding of step 2 of `predict_failure` (model invocation and
normalisation to one failure probability):
if the model has `predict_proba`, take the probability at the first index
of class `1` when the class list contains `1`, otherwise the maximum
probability; if the model is label-only, map prediction `1` to the pseudo
probability 0.9 and anything else to 0.1. -/
def invokeModel (m : Model) (df : List Value) : Except String ℚ :=
  match m with
  | .probaModel predict_proba classes? =>
    match predict_proba df with
    | .error e => .error e
    | .ok proba =>
      match classes? with
      | some classes =>
        if 1 ∈ classes then
          match proba.get? (classes.indexOf 1) with
          | some p => .ok p
          | none => .error "index out of range"
        else
          match proba.max? with
          | some p => .ok p
          | none => .error "max arg is an empty sequence"
      | none =>
        match proba.max? with
        | some p => .ok p
        | none => .error "max arg is an empty sequence"
  | .labelModel predict =>
    match predict df with
    | .error e => .error e
    | .ok pred => .ok (if pred = 1 then mkRat 9 10 else mkRat 1 10)

/-- Round half to even of the fraction n / d (with d positive), on
integers so that the kernel can evaluate it: `f` is the floor of the
fraction, `rem / d` its fractional part, and the half-way comparison
`rem / d` versus `1 / 2` is done as `2 * rem` versus `d`. -/
def roundHalfEven (n d : ℤ) : ℤ :=
  let f := n.fdiv d
  let rem := n - f * d
  if 2 * rem < d then f
  else if d < 2 * rem then f + 1
  else if f % 2 = 0 then f else f + 1

/-- Embedding of `round(prob_failure, 4)`: round half to even at the
fourth decimal place.  The value `q * 10000` is the unreduced fraction
`(q.num * 10000) / q.den`. -/
def round4 (q : ℚ) : ℚ :=
  mkRat (roundHalfEven (q.num * 10000) (q.den : ℤ)) 10000

/-- Spec-side readiness predicate of the Artifact Store: true iff the
model is present and the feature schema is present and non-empty. -/
def isReady (model? : Option Model) (cols? : Option (List String)) : Bool :=
  model?.isSome &&
    match cols? with
    | some cols => !cols.isEmpty
    | none => false

/-- Embedding of the endpoint `predict_failure`, with the module globals
`model` and `FEATURE_COLS` made explicit arguments: reject when the model
is absent or the feature columns are absent or empty; assemble the feature
row in schema order; invoke the model; classify the probability; return
the rounded probability with status and message.  Any stage failure is
translated to a fixed `HTTPException`. -/
def predict_failure (model? : Option Model) (cols? : Option (List String))
    (data : PredictionInputSchema) : Except HTTPException PredictionOutputSchema :=
  match model?, cols? with
  | some model, some cols =>
    if cols.isEmpty then .error ⟨500, unreadyDetail⟩
    else
      match assembleFeatures cols (fitur_dict data) with
      | .error _ => .error ⟨500, featureDetail⟩
      | .ok df =>
        match invokeModel model df with
        | .error _ => .error ⟨500, inferenceDetail⟩
        | .ok prob_failure =>
          let sp := interpret_probability (.val prob_failure)
          .ok ⟨sp.1, round4 prob_failure, sp.2⟩
  | _, _ => .error ⟨500, unreadyDetail⟩

/-- The six-column schema of `feature_info.json` documented in the
endpoint and the spec. -/
def schema6 : List String :=
  ["Type", "Air temperature [K]", "Process temperature [K]",
   "Rotational speed [rpm]", "Torque [Nm]", "Tool wear [min]"]

/-- The concrete sensor reading used by the column-ordering example:
air temperature 300.1, process temperature 310.2, rotational speed 1500,
torque 40.5, tool wear 10 (written with `mkRat` so that the kernel can
evaluate them: 3001/10 = 300.1, 1551/5 = 310.2, 81/2 = 40.5). -/
def reading6 : PredictionInputSchema :=
  ⟨mkRat 3001 10, mkRat 1551 5, 1500, mkRat 81 2, 10⟩

/-! ### Helper lemmas -/

theorem mkRat_3_10 : mkRat 3 10 = (3/10 : ℚ) := by
  norm_num [Rat.mkRat_eq_div]

theorem mkRat_7_10 : mkRat 7 10 = (7/10 : ℚ) := by
  norm_num [Rat.mkRat_eq_div]

theorem mkRat_9_10 : mkRat 9 10 = (9/10 : ℚ) := by
  norm_num [Rat.mkRat_eq_div]

theorem mkRat_1_10 : mkRat 1 10 = (1/10 : ℚ) := by
  norm_num [Rat.mkRat_eq_div]

theorem round4_mkRat_9_10 : round4 (mkRat 9 10) = mkRat 9 10 := by decide

theorem round4_mkRat_1_10 : round4 (mkRat 1 10) = mkRat 1 10 := by decide

/-- The classifier on a numeric probability below 0.3 yields Normal. -/
theorem interpret_val_lt (q : ℚ) (h : q < 3/10) :
    interpret_probability (.val q) = ("Normal", pesanNormal) := by
  rw [interpret_probability]
  simp [PyFloat.lt, mkRat_3_10, h]

/-- The classifier on a numeric probability in [0.3, 0.7) yields Warning. -/
theorem interpret_val_mid (q : ℚ) (h1 : 3/10 ≤ q) (h2 : q < 7/10) :
    interpret_probability (.val q) = ("Warning", pesanWarning) := by
  rw [interpret_probability]
  simp [PyFloat.lt, mkRat_3_10, mkRat_7_10, not_lt.mpr h1, h2]

/-- The classifier on a numeric probability at least 0.7 yields Failure. -/
theorem interpret_val_ge (q : ℚ) (h : 7/10 ≤ q) :
    interpret_probability (.val q) = ("Failure", pesanFailure) := by
  rw [interpret_probability]
  have h1 : ¬ (q < 3/10) := not_lt.mpr (le_trans (by norm_num) h)
  simp [PyFloat.lt, mkRat_3_10, mkRat_7_10, h1, not_lt.mpr h]

/-- Feature assembly fails exactly when some schema column is missing
from the mapping. -/
theorem assembleFeatures_error_iff (cols : List String) (dict : List (String × Value)) :
    (∃ e, assembleFeatures cols dict = .error e) ↔ ∃ c ∈ cols, dict.lookup c = none := by
  induction cols with
  | nil => simp [assembleFeatures]
  | cons c cs ih =>
    rw [assembleFeatures]
    cases hl : dict.lookup c with
    | none =>
      constructor
      · intro _
        exact ⟨c, List.mem_cons_self c cs, hl⟩
      · intro _
        exact ⟨c ++ " not in index", rfl⟩
    | some v =>
      cases ha : assembleFeatures cs dict with
      | ok vs =>
        simp only [List.mem_cons]
        constructor
        · rintro ⟨e, he⟩
          exact absurd he (by simp)
        · rintro ⟨d, hd, hnone⟩
          rcases hd with rfl | hd
          · exact absurd hnone (by simp [hl])
          · rcases ih.mpr ⟨d, hd, hnone⟩ with ⟨e, he⟩
            rw [ha] at he
            exact absurd he (by simp)
      | error e =>
        simp only [List.mem_cons]
        constructor
        · intro _
          rcases ih.mp ⟨e, ha⟩ with ⟨d, hd, hnone⟩
          exact ⟨d, Or.inr hd, hnone⟩
        · intro _
          exact ⟨e, rfl⟩

/-- A successfully assembled vector has one value per schema column. -/
theorem assembleFeatures_length (cols : List String) (dict : List (String × Value))
    (df : List Value) (h : assembleFeatures cols dict = .ok df) :
    df.length = cols.length := by
  induction cols generalizing df with
  | nil =>
    rw [assembleFeatures] at h
    cases h
    rfl
  | cons c cs ih =>
    rw [assembleFeatures] at h
    cases hl : dict.lookup c with
    | none => rw [hl] at h; cases h
    | some v =>
      rw [hl] at h
      cases ha : assembleFeatures cs dict with
      | error e => rw [ha] at h; cases h
      | ok vs =>
        rw [ha] at h
        cases h
        simp [ih vs ha]

/-- A successfully assembled vector holds, at each index, the mapping
value of the schema column at that index. -/
theorem assembleFeatures_get? (cols : List String) (dict : List (String × Value))
    (df : List Value) (h : assembleFeatures cols dict = .ok df) (i : ℕ) :
    df.get? i = (cols.get? i).bind (fun c => dict.lookup c) := by
  induction cols generalizing df i with
  | nil =>
    rw [assembleFeatures] at h
    cases h
    simp
  | cons c cs ih =>
    rw [assembleFeatures] at h
    cases hl : dict.lookup c with
    | none => rw [hl] at h; cases h
    | some v =>
      rw [hl] at h
      cases ha : assembleFeatures cs dict with
      | error e => rw [ha] at h; cases h
      | ok vs =>
        rw [ha] at h
        cases h
        cases i with
        | zero => simp [hl]
        | succ j => simpa using ih vs ha j

theorem ofScientific_300_1 : (300.1 : ℚ) = mkRat 3001 10 := by
  norm_num [Rat.mkRat_eq_div]

theorem ofScientific_310_2 : (310.2 : ℚ) = mkRat 1551 5 := by
  norm_num [Rat.mkRat_eq_div]

theorem ofScientific_40_5 : (40.5 : ℚ) = mkRat 81 2 := by
  norm_num [Rat.mkRat_eq_div]

theorem ofScientific_0_123456 : (0.123456 : ℚ) = mkRat 123456 1000000 := by
  norm_num [Rat.mkRat_eq_div]

theorem ofScientific_0_1235 : (0.1235 : ℚ) = mkRat 1235 10000 := by
  norm_num [Rat.mkRat_eq_div]

/-- Inversion of a successful pipeline run: the store was ready, assembly
and invocation succeeded, and the response is built from the classifier
output and the rounded probability. -/
theorem predict_failure_ok_inv (model? : Option Model) (cols? : Option (List String))
    (data : PredictionInputSchema) (out : PredictionOutputSchema)
    (h : predict_failure model? cols? data = .ok out) :
    ∃ model cols df q, model? = some model ∧ cols? = some cols ∧ cols.isEmpty = false ∧
      assembleFeatures cols (fitur_dict data) = .ok df ∧
      invokeModel model df = .ok q ∧
      out = ⟨(interpret_probability (.val q)).1, round4 q,
             (interpret_probability (.val q)).2⟩ := by
  cases model? with
  | none => simp [predict_failure] at h
  | some model =>
    cases cols? with
    | none => simp [predict_failure] at h
    | some cols =>
      rw [predict_failure] at h
      by_cases hc : cols.isEmpty
      · rw [if_pos hc] at h
        cases h
      · rw [if_neg hc] at h
        cases ha : assembleFeatures cols (fitur_dict data) with
        | error e => simp only [ha] at h; cases h
        | ok df =>
          simp only [ha] at h
          cases hi : invokeModel model df with
          | error e => simp only [hi] at h; cases h
          | ok q =>
            simp only [hi] at h
            cases h
            exact ⟨model, cols, df, q, rfl, rfl, Bool.not_eq_true _ ▸ (by simpa using hc),
                   ha, hi, rfl⟩

/-- Inversion of a failing pipeline run: the error is HTTP 500 with one
of the three fixed detail strings. -/
theorem predict_failure_error_inv (model? : Option Model) (cols? : Option (List String))
    (data : PredictionInputSchema) (err : HTTPException)
    (h : predict_failure model? cols? data = .error err) :
    err.status_code = 500 ∧
      (err.detail = unreadyDetail ∨ err.detail = featureDetail ∨
       err.detail = inferenceDetail) := by
  cases model? with
  | none =>
    cases cols? with
    | none => cases h; exact ⟨rfl, Or.inl rfl⟩
    | some cols => cases h; exact ⟨rfl, Or.inl rfl⟩
  | some model =>
    cases cols? with
    | none => cases h; exact ⟨rfl, Or.inl rfl⟩
    | some cols =>
      rw [predict_failure] at h
      by_cases hc : cols.isEmpty
      · rw [if_pos hc] at h
        cases h
        exact ⟨rfl, Or.inl rfl⟩
      · rw [if_neg hc] at h
        cases ha : assembleFeatures cols (fitur_dict data) with
        | error e =>
          simp only [ha] at h
          cases h
          exact ⟨rfl, Or.inr (Or.inl rfl)⟩
        | ok df =>
          simp only [ha] at h
          cases hi : invokeModel model df with
          | error e =>
            simp only [hi] at h
            cases h
            exact ⟨rfl, Or.inr (Or.inr rfl)⟩
          | ok q =>
            simp only [hi] at h
            cases h

/-! ### Claims -/

/-- C1: the Status Classifier maps every failure probability p to exactly
one status with fixed boundaries: p below 0.3 yields Normal, p in
[0.3, 0.7) yields Warning, p at least 0.7 yields Failure; 0.3 exactly
yields Warning and 0.7 exactly yields Failure, each paired with its fixed
explanatory message. -/
theorem C1_status_classifier_fixed_thresholds (p : ℚ) :
    (p < 3/10 → interpret_probability (.val p) = ("Normal", pesanNormal)) ∧
    (3/10 ≤ p → p < 7/10 → interpret_probability (.val p) = ("Warning", pesanWarning)) ∧
    (7/10 ≤ p → interpret_probability (.val p) = ("Failure", pesanFailure)) ∧
    interpret_probability (.val (3/10)) = ("Warning", pesanWarning) ∧
    interpret_probability (.val (7/10)) = ("Failure", pesanFailure) := by
  refine ⟨interpret_val_lt p, interpret_val_mid p, interpret_val_ge p, ?_, ?_⟩
  · exact interpret_val_mid (3/10) le_rfl (by norm_num)
  · exact interpret_val_ge (7/10) le_rfl

theorem C1_status_classifier_fixed_thresholds_witness :
    interpret_probability (.val (1/10)) = ("Normal", pesanNormal) ∧
    interpret_probability (.val (1/2)) = ("Warning", pesanWarning) ∧
    interpret_probability (.val (9/10)) = ("Failure", pesanFailure) :=
  ⟨(C1_status_classifier_fixed_thresholds (1/10)).1 (by norm_num),
   (C1_status_classifier_fixed_thresholds (1/2)).2.1 (by norm_num) (by norm_num),
   (C1_status_classifier_fixed_thresholds (9/10)).2.2.1 (by norm_num)⟩

/-- C2: for a probability-capable model, when the exposed class list
contains the literal label 1 the failure probability is the probability
at that class index; when the class list is absent, or present without
the label 1, it is the maximum probability across all classes. -/
theorem C2_failure_probability_normalization
    (predict_proba : List Value → Except String (List ℚ)) (classes? : Option (List Int))
    (df : List Value) (proba : List ℚ) (h : predict_proba df = .ok proba) :
    (∀ classes p, classes? = some classes → 1 ∈ classes →
        proba.get? (classes.indexOf 1) = some p →
        invokeModel (.probaModel predict_proba classes?) df = .ok p) ∧
    (∀ classes p, classes? = some classes → 1 ∉ classes → proba.max? = some p →
        invokeModel (.probaModel predict_proba classes?) df = .ok p) ∧
    (∀ p, classes? = none → proba.max? = some p →
        invokeModel (.probaModel predict_proba classes?) df = .ok p) := by
  refine ⟨?_, ?_, ?_⟩
  · rintro classes p rfl hm hg
    rw [invokeModel]
    simp only [h, if_pos hm, hg]
  · rintro classes p rfl hm hg
    rw [invokeModel]
    simp only [h, if_neg hm, hg]
  · rintro p rfl hg
    rw [invokeModel]
    simp only [h, hg]

theorem C2_failure_probability_normalization_witness :
    invokeModel (.probaModel (fun _ => .ok [mkRat 2 10, mkRat 8 10]) (some [0, 1])) [] =
      .ok (mkRat 8 10) ∧
    invokeModel (.probaModel (fun _ => .ok [mkRat 2 10, mkRat 8 10]) (some [5, 6])) [] =
      .ok (mkRat 8 10) ∧
    invokeModel (.probaModel (fun _ => .ok [mkRat 2 10, mkRat 8 10]) none) [] =
      .ok (mkRat 8 10) :=
  ⟨(C2_failure_probability_normalization _ (some [0, 1]) [] _ rfl).1
      [0, 1] (mkRat 8 10) rfl (by decide) (by decide),
   (C2_failure_probability_normalization _ (some [5, 6]) [] _ rfl).2.1
      [5, 6] (mkRat 8 10) rfl (by decide) (by decide),
   (C2_failure_probability_normalization _ none [] _ rfl).2.2
      (mkRat 8 10) rfl (by decide)⟩

/-- C3: for a label-only model whose discrete prediction on the assembled
feature vector succeeds, prediction 1 makes the pipeline return
probability exactly 0.9 with status Failure, and any other prediction
makes it return probability exactly 0.1 with status Normal. -/
theorem C3_label_only_fallback
    (predict : List Value → Except String Int) (cols : List String)
    (data : PredictionInputSchema) (df : List Value) (pred : Int)
    (hcols : cols.isEmpty = false)
    (hasm : assembleFeatures cols (fitur_dict data) = .ok df)
    (hpred : predict df = .ok pred) :
    (pred = 1 → predict_failure (some (.labelModel predict)) (some cols) data =
        .ok ⟨"Failure", 9/10, pesanFailure⟩) ∧
    (pred ≠ 1 → predict_failure (some (.labelModel predict)) (some cols) data =
        .ok ⟨"Normal", 1/10, pesanNormal⟩) := by
  have hrew : predict_failure (some (.labelModel predict)) (some cols) data =
      match invokeModel (.labelModel predict) df with
      | .error _ => .error ⟨500, inferenceDetail⟩
      | .ok prob_failure =>
        .ok ⟨(interpret_probability (.val prob_failure)).1, round4 prob_failure,
             (interpret_probability (.val prob_failure)).2⟩ := by
    rw [predict_failure, hcols]
    simp only [Bool.false_eq_true, if_false, hasm]
  constructor
  · rintro rfl
    rw [hrew, invokeModel]
    simp only [hpred, eq_self_iff_true, if_true]
    rw [round4_mkRat_9_10, mkRat_9_10, interpret_val_ge (9/10) (by norm_num)]
  · intro hne
    rw [hrew, invokeModel]
    simp only [hpred, if_neg hne]
    rw [round4_mkRat_1_10, mkRat_1_10, interpret_val_lt (1/10) (by norm_num)]

theorem C3_label_only_fallback_witness :
    predict_failure (some (.labelModel (fun _ => .ok 1))) (some schema6) reading6 =
      .ok ⟨"Failure", 9/10, pesanFailure⟩ ∧
    predict_failure (some (.labelModel (fun _ => .ok 0))) (some schema6) reading6 =
      .ok ⟨"Normal", 1/10, pesanNormal⟩ :=
  ⟨(C3_label_only_fallback (fun _ => .ok 1) schema6 reading6 _ 1 rfl rfl rfl).1 rfl,
   (C3_label_only_fallback (fun _ => .ok 0) schema6 reading6 _ 0 rfl rfl rfl).2
      (by decide)⟩

/-- C4 counterexample: with the one-column schema ["Type"], the six-key
mapping has the extra key "Air temperature [K]" that the schema does not
list — so the mapping does not equal the schema name set — yet feature
assembly succeeds rather than failing; pandas column selection silently
drops extra mapping keys. -/
theorem C4_extra_key_counterexample :
    assembleFeatures ["Type"] (fitur_dict reading6) = .ok [Value.str "M"] ∧
    ((fitur_dict reading6).lookup "Air temperature [K]").isSome = true ∧
    "Air temperature [K]" ∉ ["Type"] :=
  ⟨rfl, rfl, by decide⟩

/-- C4 (amended): feature assembly fails, and the pipeline raises the
FeatureMismatch error, exactly when some schema column is missing from
the mapping; extra mapping keys not listed in the schema are ignored. -/
theorem C4_feature_mismatch_iff_missing_column
    (cols : List String) (dict : List (String × Value)) :
    ((∃ e, assembleFeatures cols dict = .error e) ↔
      ∃ c ∈ cols, dict.lookup c = none) ∧
    (∀ model data, cols.isEmpty = false →
      (∃ c ∈ cols, (fitur_dict data).lookup c = none) →
      predict_failure (some model) (some cols) data = .error ⟨500, featureDetail⟩) := by
  refine ⟨assembleFeatures_error_iff cols dict, ?_⟩
  intro model data hcols hmiss
  rcases (assembleFeatures_error_iff cols (fitur_dict data)).mpr hmiss with ⟨e, he⟩
  rw [predict_failure, hcols]
  simp only [Bool.false_eq_true, if_false, he]

theorem C4_feature_mismatch_iff_missing_column_witness :
    predict_failure (some (.labelModel (fun _ => .ok 0))) (some ["Missing"]) reading6 =
      .error ⟨500, featureDetail⟩ :=
  (C4_feature_mismatch_iff_missing_column ["Missing"] []).2 (.labelModel (fun _ => .ok 0))
    reading6 rfl ⟨"Missing", by decide, rfl⟩

/-- C5: the system is ready exactly when the model is present and the
feature schema is present and non-empty; when it is not ready, every
request is rejected with the ArtifactUnready HTTP 500 error, a constant
that does not depend on the reading, so the Feature Assembler and the
Inference Invoker are never engaged. -/
theorem C5_unready_rejection (model? : Option Model) (cols? : Option (List String)) :
    (isReady model? cols? = true ↔
      model?.isSome = true ∧ ∃ cols, cols? = some cols ∧ cols ≠ []) ∧
    (isReady model? cols? = false →
      ∀ data, predict_failure model? cols? data = .error ⟨500, unreadyDetail⟩) := by
  constructor
  · cases model? with
    | none => simp [isReady]
    | some model =>
      cases cols? with
      | none => simp [isReady]
      | some cols => simp [isReady, List.isEmpty_iff]
  · intro hr data
    cases model? with
    | none => cases cols? <;> rfl
    | some model =>
      cases cols? with
      | none => rfl
      | some cols =>
        simp only [isReady, Option.isSome_some, Bool.true_and, Bool.not_eq_false'] at hr
        rw [predict_failure, hr]
        simp

theorem C5_unready_rejection_witness :
    isReady none none = false ∧
    predict_failure none none reading6 = .error ⟨500, unreadyDetail⟩ :=
  ⟨rfl, (C5_unready_rejection none none).2 rfl reading6⟩

/-- C6: for the six-column schema and the documented reading, the
assembled vector is exactly ["M", 300.1, 310.2, 1500, 40.5, 10]; in
general a successfully assembled vector has the schema length, holds at
every index the mapping value of the schema column at that index, and the
Type column always carries the fixed default "M" whatever the caller
sent. -/
theorem C6_column_ordering (cols : List String) (data : PredictionInputSchema)
    (df : List Value) (h : assembleFeatures cols (fitur_dict data) = .ok df) :
    assembleFeatures schema6 (fitur_dict reading6) =
      .ok [.str "M", .num 300.1, .num 310.2, .num 1500, .num 40.5, .num 10] ∧
    df.length = cols.length ∧
    (∀ i, df.get? i = (cols.get? i).bind (fun c => (fitur_dict data).lookup c)) ∧
    (fitur_dict data).lookup "Type" = some (.str "M") := by
  refine ⟨?_, assembleFeatures_length cols (fitur_dict data) df h,
          assembleFeatures_get? cols (fitur_dict data) df h, rfl⟩
  simp only [ofScientific_300_1, ofScientific_310_2, ofScientific_40_5]
  rfl

theorem C6_column_ordering_witness :
    assembleFeatures schema6 (fitur_dict reading6) =
      .ok [.str "M", .num 300.1, .num 310.2, .num 1500, .num 40.5, .num 10] :=
  (C6_column_ordering schema6 reading6 _ rfl).1

/-- C7: every successful response carries, as its probability field, the
normalized failure probability rounded to 4 decimal places; in
particular a raw model output of 0.123456 appears in the response as
0.1235. -/
theorem C7_probability_rounding (model? : Option Model) (cols? : Option (List String))
    (data : PredictionInputSchema) (out : PredictionOutputSchema)
    (h : predict_failure model? cols? data = .ok out) :
    (∃ model cols df q, model? = some model ∧ cols? = some cols ∧
        assembleFeatures cols (fitur_dict data) = .ok df ∧
        invokeModel model df = .ok q ∧ out.probability = round4 q) ∧
    predict_failure (some (.probaModel (fun _ => .ok [0.123456]) none)) (some schema6)
        reading6 =
      .ok ⟨"Normal", 0.1235, pesanNormal⟩ := by
  constructor
  · rcases predict_failure_ok_inv model? cols? data out h with
      ⟨model, cols, df, q, h1, h2, _, h4, h5, h6⟩
    exact ⟨model, cols, df, q, h1, h2, h4, h5, by rw [h6]⟩
  · simp only [ofScientific_0_123456, ofScientific_0_1235]
    rfl

theorem C7_probability_rounding_witness :
    predict_failure (some (.probaModel (fun _ => .ok [0.123456]) none)) (some schema6)
        reading6 =
      .ok ⟨"Normal", 0.1235, pesanNormal⟩ :=
  (C7_probability_rounding (some (.probaModel (fun _ => .ok [mkRat 123456 1000000]) none))
      (some schema6) reading6 ⟨"Normal", mkRat 1235 10000, pesanNormal⟩ rfl).2

/-- C8: with the Model Artifact and Feature Schema fixed, the pipeline is
a deterministic function of the Sensor Reading, so two invocations with
identical readings return results equal in status, probability and
message.  In this embedding the module state read by the handler (model
and feature columns) is passed explicitly, so the handler is a pure
function of exactly these inputs. -/
theorem C8_determinism (model? : Option Model) (cols? : Option (List String))
    (d1 d2 : PredictionInputSchema) (h : d1 = d2) :
    predict_failure model? cols? d1 = predict_failure model? cols? d2 := by
  rw [h]

theorem C8_determinism_witness :
    predict_failure (some (.labelModel (fun _ => .ok 1))) (some schema6) reading6 =
      predict_failure (some (.labelModel (fun _ => .ok 1))) (some schema6) reading6 :=
  C8_determinism (some (.labelModel (fun _ => .ok 1))) (some schema6) reading6 reading6 rfl

/-- C9: the detail string returned across the HTTP boundary for each of
the three error kinds is a fixed constant that does not depend on the
internal exception text: an artifact raising any exception text e yields
exactly the inference constant, a feature-assembly failure with any
internal error text yields exactly the feature constant, a missing model
yields exactly the unready constant, and every pipeline error is HTTP 500
with one of the three constants. -/
theorem C9_fixed_error_details (e : String) (data : PredictionInputSchema) :
    predict_failure (some (.probaModel (fun _ => .error e) none)) (some schema6) data =
      .error ⟨500, inferenceDetail⟩ ∧
    predict_failure (some (.labelModel (fun _ => .error e))) (some schema6) data =
      .error ⟨500, inferenceDetail⟩ ∧
    (∀ model cols, cols.isEmpty = false →
      assembleFeatures cols (fitur_dict data) = .error e →
      predict_failure (some model) (some cols) data = .error ⟨500, featureDetail⟩) ∧
    (∀ cols?, predict_failure none cols? data = .error ⟨500, unreadyDetail⟩) ∧
    (∀ model? cols? err, predict_failure model? cols? data = .error err →
      err.status_code = 500 ∧
        (err.detail = unreadyDetail ∨ err.detail = featureDetail ∨
         err.detail = inferenceDetail)) := by
  refine ⟨rfl, rfl, ?_, ?_, ?_⟩
  · intro model cols hcols he
    rw [predict_failure, hcols]
    simp only [Bool.false_eq_true, if_false, he]
  · intro cols?
    cases cols? <;> rfl
  · intro model? cols? err h
    exact predict_failure_error_inv model? cols? data err h

theorem C9_fixed_error_details_witness :
    predict_failure (some (.probaModel (fun _ => .error "boom") none)) (some schema6)
        reading6 =
      .error ⟨500, inferenceDetail⟩ ∧
    predict_failure (some (.labelModel (fun _ => .ok 0))) (some ["Type", "Humidity"])
        reading6 =
      .error ⟨500, featureDetail⟩ :=
  ⟨(C9_fixed_error_details "boom" reading6).1,
   (C9_fixed_error_details ("Humidity" ++ " not in index") reading6).2.2.1
      (.labelModel (fun _ => .ok 0)) ["Type", "Humidity"] rfl rfl⟩

/-- C10: the Status Classifier is total over all float inputs: every
input yields one of the three fixed status and message pairs; any
numeric input below 0.3 (negative values included) yields Normal; any
numeric input at least 0.7 (values above 1 included) yields Failure; and
NaN, for which both threshold comparisons are false, yields Failure. -/
theorem C10_classifier_total_on_floats (p : PyFloat) (q : ℚ) :
    (interpret_probability p = ("Normal", pesanNormal) ∨
     interpret_probability p = ("Warning", pesanWarning) ∨
     interpret_probability p = ("Failure", pesanFailure)) ∧
    (q < 3/10 → interpret_probability (.val q) = ("Normal", pesanNormal)) ∧
    (7/10 ≤ q → interpret_probability (.val q) = ("Failure", pesanFailure)) ∧
    interpret_probability .nan = ("Failure", pesanFailure) ∧
    PyFloat.lt .nan (.val (mkRat 3 10)) = false ∧
    PyFloat.lt .nan (.val (mkRat 7 10)) = false := by
  refine ⟨?_, interpret_val_lt q, interpret_val_ge q, rfl, rfl, rfl⟩
  rw [interpret_probability]
  by_cases h1 : PyFloat.lt p (.val (mkRat 3 10)) = true
  · rw [if_pos h1]
    exact Or.inl rfl
  · rw [if_neg h1]
    by_cases h2 : PyFloat.lt p (.val (mkRat 7 10)) = true
    · rw [if_pos h2]
      exact Or.inr (Or.inl rfl)
    · rw [if_neg h2]
      exact Or.inr (Or.inr rfl)

theorem C10_classifier_total_on_floats_witness :
    interpret_probability (.val (-1)) = ("Normal", pesanNormal) ∧
    interpret_probability (.val 2) = ("Failure", pesanFailure) ∧
    interpret_probability .nan = ("Failure", pesanFailure) :=
  ⟨(C10_classifier_total_on_floats (.val (-1)) (-1)).2.1 (by norm_num),
   (C10_classifier_total_on_floats (.val 2) 2).2.2.1 (by norm_num),
   (C10_classifier_total_on_floats .nan 0).2.2.2.1⟩
